import Mathlib

/-!
# Verification of the BeagleBone LED/Button kernel module

A shallow embedding of `src/BeagleBone_LED-Button.c` (a small Linux kernel
module driving two LEDs from a button interrupt) together with proofs of the
specified properties.

The module's state consists of a three-variant `mode` enum, a 32-bit unsigned
press counter, a per-task render boolean `ledOn`, and the GPIO output levels
of the two LED pins.  The interrupt handler `ebbgpio_irq_handler` toggles the
mode and increments the counter; the kthread loop body (one "tick" of
`kThread_run`) computes the next LED boolean from the mode and writes it to
both LED pins; `ebbgpio_init` and `ebbgpio_exit` perform setup and teardown
against the GPIO and IRQ subsystems, which we model as an environment of
call outcomes and a trace of effects.
-/

set_option autoImplicit false

namespace EBB

/-- `enum modes {OFF, ON, FLASH};` from the source. -/
inductive Modes where
  | OFF
  | ON
  | FLASH
deriving DecidableEq, Repr

open Modes

/-- Hard-coded RED LED gpio number (`static unsigned int gpioLedRED = 66`). -/
def gpioLedRED : Nat := 66

/-- Hard-coded GREEN LED gpio number (`static unsigned int gpioLedGREEN = 67`). -/
def gpioLedGREEN : Nat := 67

/-- Hard-coded button gpio number (`static unsigned int gpioButton = 69`). -/
def gpioButton : Nat := 69

/-- Initial output level of the RED LED (`currentStateLedRED = 1`). -/
def currentStateLedRED : Bool := true

/-- Initial output level of the GREEN LED (`currentStateLedGREEN = 0`). -/
def currentStateLedGREEN : Bool := false

/-- The blink period in ms (`static unsigned int blinkPeriod = 1000`). -/
def blinkPeriod : Nat := 1000

/-- `numberPresses` is a C `unsigned int`: 32 bits wide. -/
def U32 : Nat := 2 ^ 32

/-- Return value of the interrupt handler (`IRQ_HANDLED` / `IRQ_NONE`). -/
inductive IrqReturn where
  | IRQ_NONE
  | IRQ_HANDLED
deriving DecidableEq, Repr

/-- The state touched by the interrupt handler: the shared `mode` and the
`numberPresses` counter (an `unsigned int`, modelled as a `Nat` kept below
`2^32` by reducing modulo `2^32` at the increment). -/
structure IrqState where
  mode : Modes
  numberPresses : Nat
deriving DecidableEq, Repr

/-- `ebbgpio_irq_handler`: on each qualifying rising edge, toggle the mode
(`FLASH → ON`, anything else `→ FLASH`), increment `numberPresses` (32-bit
unsigned arithmetic), and return `IRQ_HANDLED`.  The `printk` has no effect
on the state. -/
def ebbgpio_irq_handler (s : IrqState) : IrqState × IrqReturn :=
  let mode' := if s.mode = FLASH then ON else FLASH
  ({ mode := mode', numberPresses := (s.numberPresses + 1) % U32 }, .IRQ_HANDLED)

/-- The state component of one interrupt-handler invocation. -/
def irqStep (s : IrqState) : IrqState :=
  (ebbgpio_irq_handler s).1

/-- The initial module state: `mode = FLASH`, `numberPresses = 0`. -/
def initialIrqState : IrqState :=
  { mode := FLASH, numberPresses := 0 }

/-- State after `n` interrupt-handler invocations from the initial state. -/
def stateAfter (n : Nat) : IrqState :=
  irqStep^[n] initialIrqState

/-- The state owned by the blink kthread: its private render flag `ledOn`
and the output levels last written to the two LED pins. -/
structure RenderState where
  ledOn : Bool
  greenOut : Bool
  redOut : Bool
deriving DecidableEq, Repr

/-- One iteration of the `kThread_run` loop body: compute the next `ledOn`
from the mode (`FLASH` inverts it, `ON` forces `true`, else `false`), then
`gpio_set_value` it to the GREEN pin and then to the RED pin. -/
def kThread_tick (mode : Modes) (s : RenderState) : RenderState :=
  let l := if mode = FLASH then !s.ledOn else if mode = ON then true else false
  { ledOn := l, greenOut := l, redOut := l }

/-! ## Startup (`ebbgpio_init`)

The init function calls into the GPIO and IRQ subsystems.  We model the
environment (which gpio numbers are valid, the `request_irq` return value,
the `kthread_run` outcome) as inputs, and record the resource effects the
code performs in a `SysState`. -/

/-- `ENODEV` errno: init returns `-ENODEV` when its pin check fires. -/
def ENODEV : Int := 19

/-- The outcomes of the external calls made by `ebbgpio_init`:
`gpio_is_valid` per pin, the `request_irq` return value, and the
`kthread_run` outcome (`none` = success, `some e` = `IS_ERR` with
`PTR_ERR = e`). -/
structure GpioEnv where
  gpio_is_valid : Nat → Bool
  request_irq_result : Int
  kthread_run_err : Option Int

/-- The GPIO/IRQ/task resources held by the module, recorded in the order
the code acquires them. -/
structure SysState where
  requested : List Nat
  outputs : List (Nat × Bool)
  inputs : List Nat
  debounced : List (Nat × Nat)
  exported : List Nat
  irqRegistered : Bool
  taskRunning : Bool
deriving DecidableEq, Repr

/-- No resources held. -/
def initialSysState : SysState :=
  { requested := [], outputs := [], inputs := [], debounced := [],
    exported := [], irqRegistered := false, taskRunning := false }

/-- `ebbgpio_init`, line by line: the pin check
`if (!gpio_is_valid(gpioLedRED) && (!gpio_is_valid(gpioLedGREEN))) return -ENODEV;`
then `gpio_request`/`gpio_direction_output`/`gpio_export` for both LEDs,
`gpio_request`/`gpio_direction_input`/`gpio_set_debounce`/`gpio_export` for
the button, `request_irq` (its result is stored but not checked), and
`kthread_run` (checked with `IS_ERR`; on failure `PTR_ERR(task)` is
returned).  Returns the final resource state and the function's return
value. -/
def ebbgpio_init (env : GpioEnv) : SysState × Int :=
  if !env.gpio_is_valid gpioLedRED && !env.gpio_is_valid gpioLedGREEN then
    (initialSysState, -ENODEV)
  else
    let s := initialSysState
    let s := { s with requested := s.requested ++ [gpioLedRED] }
    let s := { s with requested := s.requested ++ [gpioLedGREEN] }
    let s := { s with outputs := s.outputs ++ [(gpioLedRED, currentStateLedRED)] }
    let s := { s with outputs := s.outputs ++ [(gpioLedGREEN, currentStateLedGREEN)] }
    let s := { s with exported := s.exported ++ [gpioLedRED] }
    let s := { s with exported := s.exported ++ [gpioLedGREEN] }
    let s := { s with requested := s.requested ++ [gpioButton] }
    let s := { s with inputs := s.inputs ++ [gpioButton] }
    let s := { s with debounced := s.debounced ++ [(gpioButton, 200)] }
    let s := { s with exported := s.exported ++ [gpioButton] }
    let result := env.request_irq_result
    let s := { s with irqRegistered := result == 0 }
    match env.kthread_run_err with
    | some e => (s, e)
    | none => ({ s with taskRunning := true }, result)

/-! ## Shutdown (`ebbgpio_exit`)

The exit function is straight-line code; we model it as the sequence of
externally visible effects it performs, in source order. -/

/-- An externally visible effect of `ebbgpio_exit`. -/
inductive ExitEvent where
  /-- `kthread_stop(task)`: request cancellation and join the thread. -/
  | kthread_stop_task
  /-- `printk` of `gpio_get_value(gpioButton)`. -/
  | report_button_state
  /-- `printk` of `numberPresses`: the final press-counter report. -/
  | report_presses
  /-- `gpio_set_value(pin, v)`. -/
  | set_value (pin : Nat) (v : Bool)
  /-- `gpio_unexport(pin)`. -/
  | unexport_pin (pin : Nat)
  /-- `free_irq(irqNumber, NULL)`: unregister the interrupt. -/
  | free_irq_line
  /-- `gpio_free(pin)`. -/
  | free_pin (pin : Nat)
deriving DecidableEq, Repr

/-- The effect trace of `ebbgpio_exit`, in source order. -/
def ebbgpio_exit : List ExitEvent :=
  [ .kthread_stop_task,
    .report_button_state,
    .report_presses,
    .set_value gpioLedRED false,
    .set_value gpioLedGREEN false,
    .unexport_pin gpioLedRED,
    .unexport_pin gpioLedGREEN,
    .free_irq_line,
    .unexport_pin gpioButton,
    .free_pin gpioLedRED,
    .free_pin gpioLedGREEN,
    .free_pin gpioButton ]

/-! ## Derived timing parameters -/

/-- The per-tick sleep duration: `msleep(blinkPeriod/3)` (C unsigned
division, truncating). -/
def sleepPerTick : Nat := blinkPeriod / 3

/-- In `FLASH` mode the LED returns to a given level every second tick, so
one full visible on+off cycle spans two sleep intervals. -/
def visibleFlashCycle : Nat := 2 * sleepPerTick

/-- Environment in which the RED LED gpio is invalid while the GREEN LED and
button gpios are valid, and interrupt registration and thread creation
succeed. -/
def oneBadLedEnv : GpioEnv :=
  { gpio_is_valid := fun p => p != gpioLedRED,
    request_irq_result := 0,
    kthread_run_err := none }

/-- Environment in which all gpios are valid but `request_irq` fails with
`-EINVAL` (-22); thread creation succeeds. -/
def irqFailEnv : GpioEnv :=
  { gpio_is_valid := fun _ => true,
    request_irq_result := -22,
    kthread_run_err := none }

/-! ## Helper lemmas about the interrupt handler iteration -/

/-- The mode update performed by one handler invocation. -/
theorem irqStep_mode (s : IrqState) :
    (irqStep s).mode = if s.mode = FLASH then ON else FLASH := rfl

/-- The counter update performed by one handler invocation. -/
theorem irqStep_presses (s : IrqState) :
    (irqStep s).numberPresses = (s.numberPresses + 1) % U32 := rfl

/-- Unfolding one invocation at the end of a run. -/
theorem stateAfter_succ (n : Nat) : stateAfter (n + 1) = irqStep (stateAfter n) :=
  Function.iterate_succ_apply' irqStep n initialIrqState

/-- Closed form of the mode after `n` handler invocations: `ON` after an odd
number, `FLASH` after an even number. -/
theorem mode_stateAfter (n : Nat) :
    (stateAfter n).mode = if n % 2 = 1 then ON else FLASH := by
  induction n with
  | zero => rfl
  | succ n ih =>
      rw [stateAfter_succ, irqStep_mode, ih]
      rcases Nat.mod_two_eq_zero_or_one n with h | h
      · have h2 : (n + 1) % 2 = 1 := by omega
        simp [h, h2]
      · have h2 : (n + 1) % 2 = 0 := by omega
        simp [h, h2]

/-- Closed form of the press counter after `n` handler invocations. -/
theorem presses_stateAfter (n : Nat) :
    (stateAfter n).numberPresses = n % U32 := by
  induction n with
  | zero => rfl
  | succ n ih =>
      rw [stateAfter_succ, irqStep_presses, ih, Nat.mod_add_mod]

/-! ## Claim theorems -/

/-- C1 (amended): for every sequence of `N < 2^32` invocations of the
interrupt handler starting from the initial state (`mode = FLASH`,
`numberPresses = 0`), the mode observed after the `k`-th invocation is `ON`
for odd `k` and `FLASH` for even `k` (strict alternation On, Flash, …), and
after all `N` invocations the press counter equals `N`. -/
theorem c1_irq_sequence (N : Nat) (hN : N < U32) :
    (∀ k, 1 ≤ k → k ≤ N →
      (stateAfter k).mode = if k % 2 = 1 then Modes.ON else Modes.FLASH)
    ∧ (stateAfter N).numberPresses = N := by
  refine ⟨fun k _ _ => mode_stateAfter k, ?_⟩
  rw [presses_stateAfter]
  exact Nat.mod_eq_of_lt hN

/-- C1 witness: after three invocations the mode is `ON` (3 is odd) and the
counter is 3. -/
theorem c1_irq_sequence_witness :
    (stateAfter 3).numberPresses = 3
    ∧ (stateAfter 3).mode = if 3 % 2 = 1 then Modes.ON else Modes.FLASH :=
  ⟨(c1_irq_sequence 3 (by norm_num [U32])).2,
   (c1_irq_sequence 3 (by norm_num [U32])).1 3 (by norm_num) (le_refl 3)⟩

/-- C1 counterexample: `numberPresses` is a 32-bit unsigned counter, so after
exactly `2^32` handler invocations it has wrapped to 0 and does not equal the
number of invocations, refuting the unbounded form of the claim. -/
theorem c1_counterexample :
    (stateAfter U32).numberPresses ≠ U32 ∧ (stateAfter U32).numberPresses = 0 := by
  rw [presses_stateAfter, Nat.mod_self]
  exact ⟨by norm_num [U32], rfl⟩

/-- C2: each blink-task tick computes the next LED boolean from the mode —
`FLASH` inverts the previous rendered boolean, `ON` forces `true`, `OFF`
forces `false` — and writes that boolean to both LED outputs. -/
theorem c2_tick (s : RenderState) :
    (kThread_tick Modes.FLASH s).ledOn = !s.ledOn
    ∧ (kThread_tick Modes.ON s).ledOn = true
    ∧ (kThread_tick Modes.OFF s).ledOn = false
    ∧ (∀ m, (kThread_tick m s).redOut = (kThread_tick m s).ledOn
        ∧ (kThread_tick m s).greenOut = (kThread_tick m s).ledOn) :=
  ⟨rfl, rfl, rfl, fun _ => ⟨rfl, rfl⟩⟩

/-- C3 evaluation: with the RED LED pin invalid but the GREEN LED and button
pins valid, `ebbgpio_init` does not return `-ENODEV`: its validity check uses
`&&`, which only fires when both LED pins are invalid, so startup proceeds to
request all three GPIOs and returns 0. -/
theorem c3_one_invalid_led_not_rejected :
    (ebbgpio_init oneBadLedEnv).2 = 0
    ∧ (ebbgpio_init oneBadLedEnv).2 ≠ -ENODEV
    ∧ (ebbgpio_init oneBadLedEnv).1.requested = [gpioLedRED, gpioLedGREEN, gpioButton]
    ∧ (ebbgpio_init oneBadLedEnv).1.exported = [gpioLedRED, gpioLedGREEN, gpioButton] := by
  decide

/-- C4: the handler's toggle maps `FLASH` to `ON` and `ON` to `FLASH`, and
starting from the initial mode `FLASH` the `OFF` variant is reached by no
sequence of handler invocations: the mode is always `ON` or `FLASH`. -/
theorem c4_mode_invariant :
    (∀ n, (irqStep { mode := Modes.FLASH, numberPresses := n }).mode = Modes.ON)
    ∧ (∀ n, (irqStep { mode := Modes.ON, numberPresses := n }).mode = Modes.FLASH)
    ∧ (∀ n, (stateAfter n).mode ≠ Modes.OFF
        ∧ ((stateAfter n).mode = Modes.ON ∨ (stateAfter n).mode = Modes.FLASH)) := by
  refine ⟨fun _ => rfl, fun _ => rfl, fun n => ?_⟩
  rw [mode_stateAfter]
  rcases Nat.mod_two_eq_zero_or_one n with h | h <;> simp [h]

/-- C5: the per-tick sleep is `blinkPeriod / 3` ms with truncating division
(333 ms for the configured 1000 ms), the rendered LED level returns to its
starting value after exactly two `FLASH` ticks, and so a full visible flash
cycle spans `2 * (blinkPeriod / 3) = 666` ms, not `blinkPeriod = 1000` ms. -/
theorem c5_blink_timing :
    sleepPerTick = blinkPeriod / 3
    ∧ sleepPerTick = 333
    ∧ (∀ s : RenderState,
        (kThread_tick Modes.FLASH (kThread_tick Modes.FLASH s)).ledOn = s.ledOn
        ∧ (kThread_tick Modes.FLASH s).ledOn = !s.ledOn)
    ∧ visibleFlashCycle = 2 * (blinkPeriod / 3)
    ∧ visibleFlashCycle = 666
    ∧ visibleFlashCycle ≠ blinkPeriod := by
  refine ⟨rfl, rfl, fun s => ⟨by simp [kThread_tick], rfl⟩, rfl, rfl, by decide⟩

/-- C6 evaluation: when `request_irq` fails (returns -22) with all pins
valid, `ebbgpio_init` keeps all three GPIOs requested and exported, still
spawns the blink thread, and returns -22 without releasing any resource —
it does not abort-and-release as the claim requires. -/
theorem c6_irq_failure_not_aborted :
    (ebbgpio_init irqFailEnv).2 = -22
    ∧ (ebbgpio_init irqFailEnv).1.requested = [gpioLedRED, gpioLedGREEN, gpioButton]
    ∧ (ebbgpio_init irqFailEnv).1.exported = [gpioLedRED, gpioLedGREEN, gpioButton]
    ∧ (ebbgpio_init irqFailEnv).1.irqRegistered = false
    ∧ (ebbgpio_init irqFailEnv).1.taskRunning = true := by
  decide

/-- C7 counterexample: the press counter is reported at position 2 of the
shutdown trace, immediately after the task join — not last (the last effect
is freeing the button gpio) — and the interrupt is unregistered (position 7)
before the button pin is unexported (position 8) and before any gpio is
freed, refuting the claimed strict order. -/
theorem c7_counterexample :
    ebbgpio_exit.getLast? ≠ some ExitEvent.report_presses
    ∧ ebbgpio_exit.get? 2 = some ExitEvent.report_presses
    ∧ ebbgpio_exit.get? 7 = some ExitEvent.free_irq_line
    ∧ ebbgpio_exit.get? 8 = some (ExitEvent.unexport_pin gpioButton)
    ∧ ebbgpio_exit.get? 9 = some (ExitEvent.free_pin gpioLedRED) := by
  decide

/-- C7 (amended): the shutdown procedure stops and joins the blink task
first; then reads the button state and reports the final press-counter
value; then forces both LED outputs off; then unexports the two LED pins;
then unregisters the interrupt; then unexports the button pin; and frees the
three gpios last.  The counter report thus comes right after the task join
rather than last, and the interrupt is unregistered before the button unexport
and before the gpio frees. -/
theorem c7_shutdown_order :
    ebbgpio_exit =
      [ ExitEvent.kthread_stop_task,
        ExitEvent.report_button_state,
        ExitEvent.report_presses,
        ExitEvent.set_value gpioLedRED false,
        ExitEvent.set_value gpioLedGREEN false,
        ExitEvent.unexport_pin gpioLedRED,
        ExitEvent.unexport_pin gpioLedGREEN,
        ExitEvent.free_irq_line,
        ExitEvent.unexport_pin gpioButton,
        ExitEvent.free_pin gpioLedRED,
        ExitEvent.free_pin gpioLedGREEN,
        ExitEvent.free_pin gpioButton ]
    ∧ ebbgpio_exit.head? = some ExitEvent.kthread_stop_task
    ∧ ebbgpio_exit.getLast? = some (ExitEvent.free_pin gpioButton) := by
  decide

/-- C8: with the mode held at `FLASH`, every tick inverts the rendered
boolean (so after `K` ticks it has flipped exactly `K` times), each tick
writes the new boolean to both LED outputs, and after `K` ticks the boolean
equals the initial boolean XOR the parity of `K`. -/
theorem c8_flash_alternation (K : Nat) (s : RenderState) :
    (∀ j, ((kThread_tick Modes.FLASH)^[j + 1] s).ledOn
        = !((kThread_tick Modes.FLASH)^[j] s).ledOn)
    ∧ ((kThread_tick Modes.FLASH)^[K] s).ledOn = xor s.ledOn (K % 2 == 1)
    ∧ (∀ j, ((kThread_tick Modes.FLASH)^[j + 1] s).redOut
          = ((kThread_tick Modes.FLASH)^[j + 1] s).ledOn
        ∧ ((kThread_tick Modes.FLASH)^[j + 1] s).greenOut
          = ((kThread_tick Modes.FLASH)^[j + 1] s).ledOn) := by
  refine ⟨fun j => ?_, ?_, fun j => ?_⟩
  · rw [Function.iterate_succ_apply']
    rfl
  · induction K with
    | zero => simp
    | succ K ih =>
        rw [Function.iterate_succ_apply']
        have hstep : (kThread_tick Modes.FLASH ((kThread_tick Modes.FLASH)^[K] s)).ledOn
            = !((kThread_tick Modes.FLASH)^[K] s).ledOn := rfl
        rw [hstep, ih]
        rcases Nat.mod_two_eq_zero_or_one K with h | h
        · have h2 : (K + 1) % 2 = 1 := by omega
          simp [h, h2]
        · have h2 : (K + 1) % 2 = 0 := by omega
          simp [h, h2]
  · rw [Function.iterate_succ_apply']
    exact ⟨rfl, rfl⟩

/-- C9: from the `OFF` mode (were it ever reached), a single handler
invocation sets the mode to `FLASH` — not `ON` — increments the press
counter, and returns `IRQ_HANDLED`; the handler maps the other non-`FLASH`
mode, `ON`, to `FLASH` as well. -/
theorem c9_off_maps_to_flash (n : Nat) :
    ebbgpio_irq_handler { mode := Modes.OFF, numberPresses := n }
      = ({ mode := Modes.FLASH, numberPresses := (n + 1) % U32 }, IrqReturn.IRQ_HANDLED)
    ∧ ebbgpio_irq_handler { mode := Modes.ON, numberPresses := n }
      = ({ mode := Modes.FLASH, numberPresses := (n + 1) % U32 }, IrqReturn.IRQ_HANDLED) :=
  ⟨rfl, rfl⟩

/-- C10: after every tick, the red and green LED outputs are equal — both
hold the single shared render flag written that tick. -/
theorem c10_red_green_equal (m : Modes) (s : RenderState) :
    (kThread_tick m s).redOut = (kThread_tick m s).greenOut
    ∧ (kThread_tick m s).redOut = (kThread_tick m s).ledOn :=
  ⟨rfl, rfl⟩

end EBB
